import Mathlib

/-!
# Verification of the VMAX capacity dashboard collection/query pipeline

A shallow embedding of the repository's data model (`data_models.py`), the
collection pipeline (`vmax_collector.py`) and the query/trigger layer
(`api_server.py`), together with theorems settling the specification claims.

Conventions of the embedding:
* Python `float` values are modelled as `ℚ` (the claims concern which formula
  or branch is applied, not IEEE rounding).
* Python exceptions are modelled with `Except`: a fetch operation of the
  vendor client either returns a value or an exception (`PyExn`); a collector
  either returns its result or the message of the `DataCollectionError` it
  raises.
* `datetime.now().isoformat()` is modelled by an abstract clock
  `clock : Nat → String` together with an explicit counter threaded through
  the pipeline: the k-th `now()` call of a run reads `clock k`.
* Python truthiness tests on optional strings (`if not srp_id`,
  `if storage_group`) treat both `None` and the empty string as falsy, and
  `if limit` treats both `None` and `0` as falsy; the embedding reproduces
  this exactly.
-/

/-- `data_models.SystemCapacity`: system-level capacity record. -/
structure SystemCapacity where
  array_id : String
  timestamp : String
  effective_used_capacity_gb : ℚ
  max_effective_capacity_gb : ℚ
  subscribed_capacity_gb : ℚ
  total_usable_capacity_gb : ℚ
  free_capacity_gb : ℚ
  utilization_percent : ℚ
deriving Repr, DecidableEq

/-- The `SystemCapacity` dataclass constructor including `__post_init__`
(`data_models.py` lines 17-41).  The two derived fields are optional
constructor arguments defaulting to `0.0`; `__post_init__` overwrites them
only when `max_effective_capacity_gb > 0`. -/
def mkSystemCapacity (array_id timestamp : String)
    (effective_used max_effective subscribed total_usable : ℚ)
    (free : ℚ := 0) (util : ℚ := 0) : SystemCapacity :=
  if 0 < max_effective then
    { array_id := array_id, timestamp := timestamp
      effective_used_capacity_gb := effective_used
      max_effective_capacity_gb := max_effective
      subscribed_capacity_gb := subscribed
      total_usable_capacity_gb := total_usable
      free_capacity_gb := max_effective - effective_used
      utilization_percent := effective_used / max_effective * 100 }
  else
    { array_id := array_id, timestamp := timestamp
      effective_used_capacity_gb := effective_used
      max_effective_capacity_gb := max_effective
      subscribed_capacity_gb := subscribed
      total_usable_capacity_gb := total_usable
      free_capacity_gb := free
      utilization_percent := util }

/-- `data_models.SrpCapacity`: storage-resource-pool capacity record. -/
structure SrpCapacity where
  array_id : String
  srp_id : String
  timestamp : String
  used_capacity_gb : ℚ
  subscribed_capacity_gb : ℚ
  total_managed_space_gb : ℚ
  free_capacity_gb : ℚ
  utilization_percent : ℚ
  subscription_percent : ℚ
deriving Repr, DecidableEq

/-- The `SrpCapacity` dataclass constructor including `__post_init__`
(`data_models.py` lines 44-73): the three derived fields default to `0.0`
and are computed only when `total_managed_space_gb > 0`. -/
def mkSrpCapacity (array_id srp_id timestamp : String)
    (used subscribed total_managed : ℚ)
    (free : ℚ := 0) (util : ℚ := 0) (subscription : ℚ := 0) : SrpCapacity :=
  if 0 < total_managed then
    { array_id := array_id, srp_id := srp_id, timestamp := timestamp
      used_capacity_gb := used
      subscribed_capacity_gb := subscribed
      total_managed_space_gb := total_managed
      free_capacity_gb := total_managed - used
      utilization_percent := used / total_managed * 100
      subscription_percent := subscribed / total_managed * 100 }
  else
    { array_id := array_id, srp_id := srp_id, timestamp := timestamp
      used_capacity_gb := used
      subscribed_capacity_gb := subscribed
      total_managed_space_gb := total_managed
      free_capacity_gb := free
      utilization_percent := util
      subscription_percent := subscription }

/-- `data_models.StorageGroupCapacity`. -/
structure StorageGroupCapacity where
  array_id : String
  storage_group_id : String
  timestamp : String
  capacity_gb : ℚ
  num_volumes : Int
  service_level : Option String
  srp_name : Option String
  compression_enabled : Bool
deriving Repr, DecidableEq

/-- The `StorageGroupCapacity` dataclass constructor including
`__post_init__` (`data_models.py` lines 76-96): a negative capacity is
clamped to `0.0`. -/
def mkStorageGroupCapacity (array_id storage_group_id timestamp : String)
    (capacity : ℚ) (num_volumes : Int := 0)
    (service_level : Option String := none) (srp_name : Option String := none)
    (compression : Bool := false) : StorageGroupCapacity :=
  { array_id := array_id, storage_group_id := storage_group_id
    timestamp := timestamp
    capacity_gb := if capacity < 0 then 0 else capacity
    num_volumes := num_volumes
    service_level := service_level
    srp_name := srp_name
    compression_enabled := compression }

/-- `data_models.VolumeCapacity`. -/
structure VolumeCapacity where
  array_id : String
  volume_id : String
  volume_identifier : String
  timestamp : String
  capacity_gb : ℚ
  allocated_percent : ℚ
  storage_groups : List String
  wwn : Option String
  emulation_type : Option String
deriving Repr, DecidableEq

/-- The `VolumeCapacity` dataclass constructor including `__post_init__`
(`data_models.py` lines 99-122): negative capacity is clamped to `0.0`;
`allocated_percent` outside `[0, 100]` is reset to `0.0`. -/
def mkVolumeCapacity (array_id volume_id volume_identifier timestamp : String)
    (capacity : ℚ) (allocated : ℚ := 0)
    (storage_groups : List String := [])
    (wwn : Option String := none) (emulation_type : Option String := none) :
    VolumeCapacity :=
  { array_id := array_id, volume_id := volume_id
    volume_identifier := volume_identifier, timestamp := timestamp
    capacity_gb := if capacity < 0 then 0 else capacity
    allocated_percent := if ¬(0 ≤ allocated ∧ allocated ≤ 100) then 0 else allocated
    storage_groups := storage_groups
    wwn := wwn
    emulation_type := emulation_type }

/-- `data_models.CapacitySnapshot`: the aggregated four-level snapshot. -/
structure CapacitySnapshot where
  array_id : String
  collection_timestamp : String
  system_capacity : SystemCapacity
  srp_capacities : List SrpCapacity
  storage_group_capacities : List StorageGroupCapacity
  volume_capacities : List VolumeCapacity
deriving Repr, DecidableEq

/-- A Python exception raised by a vendor-client fetch call, carrying its
rendered message.  `get_system_summary` distinguishes
`PyU4V...VolumeBackendAPIException`, `KeyError` and generic `Exception`
catch clauses; the other collectors have no `KeyError` clause, so a
`keyErr` there falls into the generic branch. -/
inductive PyExn where
  | apiExn (msg : String)
  | keyErr (msg : String)
  | otherExn (msg : String)
deriving Repr, DecidableEq

/-- Message of the `DataCollectionError` raised by `get_system_summary`
for each catch branch (`vmax_collector.py` lines 227-241). -/
def wrapSysExn : PyExn → String
  | .apiExn m => "Failed to retrieve system summary: " ++ m
  | .keyErr m => "API response missing required field: " ++ m
  | .otherExn m => "System summary collection failed: " ++ m

/-- Message of the `DataCollectionError` raised by `get_srp_capacity`
(`vmax_collector.py` lines 340-349; no `KeyError` clause). -/
def wrapSrpExn : PyExn → String
  | .apiExn m => "Failed to retrieve SRP capacity: " ++ m
  | .keyErr m => "SRP capacity collection failed: " ++ m
  | .otherExn m => "SRP capacity collection failed: " ++ m

/-- Message of the `DataCollectionError` raised by `get_all_storage_groups`
(`vmax_collector.py` lines 442-451). -/
def wrapSgExn : PyExn → String
  | .apiExn m => "Failed to retrieve storage groups: " ++ m
  | .keyErr m => "Storage group collection failed: " ++ m
  | .otherExn m => "Storage group collection failed: " ++ m

/-- Message of the `DataCollectionError` raised by `get_all_volumes`
(`vmax_collector.py` lines 557-566). -/
def wrapVolExn : PyExn → String
  | .apiExn m => "Failed to retrieve volumes: " ++ m
  | .keyErr m => "Volume collection failed: " ++ m
  | .otherExn m => "Volume collection failed: " ++ m

/-- Parsed payload of the array performance stats response: the four raw
metric values after the `result.get(metric, 0)` defaults of
`get_system_summary` have been applied. -/
structure SysRaw where
  effectiveUsed : ℚ
  maxEffective : ℚ
  subscribed : ℚ
  totalUsable : ℚ
deriving Repr, DecidableEq

/-- One element of the `storageResourcePoolInfo` list: its
`storageResourcePoolId` entry (`dict.get` may yield `None`). -/
structure PoolInfo where
  storageResourcePoolId : Option String
deriving Repr, DecidableEq

/-- Parsed payload of one pool's performance stats, after the
`result.get(metric, 0)` defaults. -/
structure PoolRaw where
  used : ℚ
  subscribed : ℚ
  totalManaged : ℚ
deriving Repr, DecidableEq

/-- Parsed payload of `get_storage_group` details for one group, after the
`sg_details.get(..., default)` defaults. -/
structure SgRaw where
  cap_gb : ℚ
  num_of_vols : Int
  slo : Option String
  srp : Option String
  compression : Bool
deriving Repr, DecidableEq

/-- Parsed payload of `get_volume` details for one volume, after the
`vol_details.get(..., default)` defaults. -/
structure VolRaw where
  volume_identifier : String
  cap_gb : ℚ
  allocated_percent : ℚ
  storageGroupId : List String
  wwn : Option String
  emulationType : Option String
deriving Repr, DecidableEq

/-- The environment of one collection run: the vendor-client fetch
operations (spec §6 Metric Source Client contract), each returning a value
or raising, plus the clock read by successive `datetime.now()` calls.

* `connect` models `load_config` plus the `VmaxCapacityCollector`
  constructor in `api_server.collect_capacity_data` (error already rendered
  via `str(e)`).
* `fetchArrayKeys` is the truthiness of `performance.get_array_keys()`.
* `fetchArrayStats` is `performance.get_array_stats`; `none` models a falsy
  response or one missing the `result` key.
* `fetchPoolKeys` is `performance.get_storage_resource_pool_keys`; `none`
  models a falsy response or one missing `storageResourcePoolInfo`.
* `fetchPoolStats`, `fetchSgDetails`, `fetchVolDetails` take the item id;
  for details, `none` models a falsy details dict. -/
structure FetchEnv where
  connect : Except String Unit
  clock : Nat → String
  fetchArrayKeys : Except PyExn Bool
  fetchArrayStats : Except PyExn (Option SysRaw)
  fetchPoolKeys : Except PyExn (Option (List PoolInfo))
  fetchPoolStats : String → Except PyExn PoolRaw
  fetchSgList : Except PyExn (List String)
  fetchSgDetails : String → Except PyExn (Option SgRaw)
  fetchVolList : Except PyExn (List String)
  fetchVolDetails : String → Except PyExn (Option VolRaw)

/-- Python truthiness of an optional string: `None` and `""` are falsy.
Used for `if not srp_id: continue` and `if storage_group:`. -/
def pyStrOpt : Option String → Option String
  | none => none
  | some s => if s = "" then none else some s

/-- `VmaxCapacityCollector.get_system_summary` (`vmax_collector.py`
lines 150-241).  `c` is the clock counter at entry; on success the returned
counter accounts for the single `datetime.now()` call made while
constructing the `SystemCapacity`.  A falsy `get_array_keys` result or an
invalid stats response raises a `DataCollectionError` that the generic
`except Exception` clause re-wraps. -/
def get_system_summary (env : FetchEnv) (array_id : String) (c : Nat) :
    Except String (SystemCapacity × Nat) :=
  match env.fetchArrayKeys with
  | .error e => .error (wrapSysExn e)
  | .ok false =>
    .error ("System summary collection failed: " ++ "No array keys found")
  | .ok true =>
    match env.fetchArrayStats with
    | .error e => .error (wrapSysExn e)
    | .ok none =>
      .error ("System summary collection failed: " ++
        "Invalid response format from performance API")
    | .ok (some raw) =>
      .ok (mkSystemCapacity array_id (env.clock c)
        raw.effectiveUsed raw.maxEffective raw.subscribed raw.totalUsable,
        c + 1)

/-- The per-pool loop of `get_srp_capacity` (`vmax_collector.py`
lines 287-335): a pool with a falsy id is skipped; a raising per-pool stats
fetch is caught, logged and the pool skipped; a successful pool consumes one
clock tick for its `SrpCapacity` timestamp. -/
def srpLoop (env : FetchEnv) (array_id : String) :
    List PoolInfo → Nat → List SrpCapacity × Nat
  | [], c => ([], c)
  | info :: rest, c =>
    match pyStrOpt info.storageResourcePoolId with
    | none => srpLoop env array_id rest c
    | some srp_id =>
      match env.fetchPoolStats srp_id with
      | .error _ => srpLoop env array_id rest c
      | .ok raw =>
        let entry := mkSrpCapacity array_id srp_id (env.clock c)
          raw.used raw.subscribed raw.totalManaged
        let next := srpLoop env array_id rest (c + 1)
        (entry :: next.1, next.2)

/-- `VmaxCapacityCollector.get_srp_capacity` (`vmax_collector.py`
lines 243-349): a raising identifier-list fetch is fatal
(`DataCollectionError`); a falsy/missing identifier list yields an empty
result; per-pool failures are skipped by `srpLoop`. -/
def get_srp_capacity (env : FetchEnv) (array_id : String) (c : Nat) :
    Except String (List SrpCapacity × Nat) :=
  match env.fetchPoolKeys with
  | .error e => .error (wrapSrpExn e)
  | .ok none => .ok ([], c)
  | .ok (some srp_list) => .ok (srpLoop env array_id srp_list c)

/-- The per-group loop of `get_all_storage_groups` (`vmax_collector.py`
lines 404-433): raising or falsy per-group details are skipped; a
successful group consumes one clock tick. -/
def sgLoop (env : FetchEnv) (array_id : String) :
    List String → Nat → List StorageGroupCapacity × Nat
  | [], c => ([], c)
  | sg_id :: rest, c =>
    match env.fetchSgDetails sg_id with
    | .error _ => sgLoop env array_id rest c
    | .ok none => sgLoop env array_id rest c
    | .ok (some d) =>
      let entry := mkStorageGroupCapacity array_id sg_id (env.clock c)
        d.cap_gb d.num_of_vols d.slo d.srp d.compression
      let next := sgLoop env array_id rest (c + 1)
      (entry :: next.1, next.2)

/-- `VmaxCapacityCollector.get_all_storage_groups` (`vmax_collector.py`
lines 351-451): a raising list fetch is fatal; an empty (falsy) list yields
an empty result; per-group failures are skipped by `sgLoop`. -/
def get_all_storage_groups (env : FetchEnv) (array_id : String) (c : Nat) :
    Except String (List StorageGroupCapacity × Nat) :=
  match env.fetchSgList with
  | .error e => .error (wrapSgExn e)
  | .ok [] => .ok ([], c)
  | .ok sg_list => .ok (sgLoop env array_id sg_list c)

/-- The per-volume loop of `get_all_volumes` (`vmax_collector.py`
lines 511-548): raising or falsy per-volume details are skipped; a
successful volume consumes one clock tick. -/
def volLoop (env : FetchEnv) (array_id : String) :
    List String → Nat → List VolumeCapacity × Nat
  | [], c => ([], c)
  | volume_id :: rest, c =>
    match env.fetchVolDetails volume_id with
    | .error _ => volLoop env array_id rest c
    | .ok none => volLoop env array_id rest c
    | .ok (some v) =>
      let entry := mkVolumeCapacity array_id volume_id v.volume_identifier
        (env.clock c) v.cap_gb v.allocated_percent v.storageGroupId
        v.wwn v.emulationType
      let next := volLoop env array_id rest (c + 1)
      (entry :: next.1, next.2)

/-- `VmaxCapacityCollector.get_all_volumes` (`vmax_collector.py`
lines 453-566): a raising list fetch is fatal; an empty (falsy) list yields
an empty result; per-volume failures are skipped by `volLoop`. -/
def get_all_volumes (env : FetchEnv) (array_id : String) (c : Nat) :
    Except String (List VolumeCapacity × Nat) :=
  match env.fetchVolList with
  | .error e => .error (wrapVolExn e)
  | .ok [] => .ok ([], c)
  | .ok volume_list => .ok (volLoop env array_id volume_list c)

/-- `VmaxCapacityCollector.get_all_capacity_data` (`vmax_collector.py`
lines 568-640): captures `collection_start = datetime.now()` (clock tick 0),
then runs the four level collectors strictly in order, threading the clock
counter, and assembles the `CapacitySnapshot`.  Any `DataCollectionError`
from a collector propagates. -/
def get_all_capacity_data (env : FetchEnv) (array_id : String) :
    Except String CapacitySnapshot :=
  let collection_start := env.clock 0
  match get_system_summary env array_id 1 with
  | .error e => .error e
  | .ok (system_capacity, c1) =>
    match get_srp_capacity env array_id c1 with
    | .error e => .error e
    | .ok (srp_capacities, c2) =>
      match get_all_storage_groups env array_id c2 with
      | .error e => .error e
      | .ok (storage_group_capacities, c3) =>
        match get_all_volumes env array_id c3 with
        | .error e => .error e
        | .ok (volume_capacities, _c4) =>
          .ok { array_id := array_id
                collection_timestamp := collection_start
                system_capacity := system_capacity
                srp_capacities := srp_capacities
                storage_group_capacities := storage_group_capacities
                volume_capacities := volume_capacities }

/-- The module-level mutable state of `api_server.py` (lines 52-57):
snapshot store plus collection status. -/
structure ServerState where
  current_snapshot : Option CapacitySnapshot
  collection_in_progress : Bool
  last_collection_time : Option String
  collection_error : Option String
deriving Repr, DecidableEq

/-- A lifecycle event broadcast over the notification bus by
`collect_capacity_data`. -/
inductive Event where
  | collectionStarted
  | collectionProgress (step : String)
  | collectionCompleted (array_id : String)
  | collectionError (msg : String)
deriving Repr, DecidableEq

/-- `api_server.collect_capacity_data` (lines 162-228) as a state
transition.  `now_time` is the `datetime.now().isoformat()` used for
`last_collection_time` on success.  Sets `collection_in_progress` and
clears `collection_error`, broadcasts `collection_started`; on connection
(config/constructor) failure or a raising `get_all_capacity_data`, records
the error message; on success, replaces the snapshot, sets
`last_collection_time` and clears the error; the `finally` clause always
resets `collection_in_progress`.  Returns the new state and the broadcast
events in order. -/
def collect_capacity_data (env : FetchEnv) (array_id : String)
    (now_time : String) (s : ServerState) : ServerState × List Event :=
  let s1 : ServerState :=
    { s with collection_in_progress := true, collection_error := none }
  match env.connect with
  | .error e =>
    ({ s1 with collection_error := some e, collection_in_progress := false },
     [.collectionStarted, .collectionError e])
  | .ok _ =>
    match get_all_capacity_data env array_id with
    | .error e =>
      ({ s1 with collection_error := some e, collection_in_progress := false },
       [.collectionStarted, .collectionProgress "system", .collectionError e])
    | .ok snapshot =>
      ({ current_snapshot := some snapshot
         collection_in_progress := false
         last_collection_time := some now_time
         collection_error := none },
       [.collectionStarted, .collectionProgress "system",
        .collectionCompleted snapshot.array_id])

/-- `api_server.trigger_collection` (lines 254-272): rejects with HTTP 409
`"Collection already in progress"` when a collection is in progress and the
request does not set `force_refresh`; otherwise schedules the background
task and reports `started`. -/
def trigger_collection (collection_in_progress : Bool) (force_refresh : Bool) :
    Except (Nat × String) String :=
  if collection_in_progress && !force_refresh then
    .error (409, "Collection already in progress")
  else
    .ok "started"

/-- Python `sorted(volumes, key=lambda x: x.capacity_gb, reverse=True)`:
a stable sort, descending by capacity. -/
def sortVolumesDesc (volumes : List VolumeCapacity) : List VolumeCapacity :=
  volumes.mergeSort (fun a b => decide (b.capacity_gb ≤ a.capacity_gb))

/-- The storage-group filter of `get_volumes` (lines 334-336): applied only
when `storage_group` is truthy; keeps volumes whose `storage_groups` list
contains the requested group. -/
def filterVolumes (volumes : List VolumeCapacity)
    (storage_group : Option String) : List VolumeCapacity :=
  match pyStrOpt storage_group with
  | none => volumes
  | some g => volumes.filter (fun v => v.storage_groups.contains g)

/-- The response of `get_volumes`. -/
structure VolumesPage where
  total : Nat
  offset : Nat
  limit : Option Nat
  items : List VolumeCapacity
deriving Repr, DecidableEq

/-- `api_server.get_volumes` (lines 322-352): filter by group membership,
sort descending by capacity, record the total before pagination, and slice
`volumes[offset : offset + limit]` only when `limit` is truthy (not `None`
and not `0`). -/
def get_volumes (snapshot : CapacitySnapshot) (storage_group : Option String)
    (limit : Option Nat) (offset : Nat) : VolumesPage :=
  let volumes := filterVolumes snapshot.volume_capacities storage_group
  let volumes := sortVolumesDesc volumes
  let total_count := volumes.length
  let items :=
    match limit with
    | none => volumes
    | some 0 => volumes
    | some l => (volumes.drop offset).take l
  { total := total_count, offset := offset, limit := limit, items := items }

/-- `sg.service_level or "None"` (line 372): Python `or` replaces both
`None` and the empty string by the sentinel `"None"`. -/
def slKey (sg : StorageGroupCapacity) : String :=
  match sg.service_level with
  | none => "None"
  | some s => if s = "" then "None" else s

/-- One accumulator entry of the service-level breakdown (lines 373-382). -/
structure ServiceLevelEntry where
  service_level : String
  count : Nat
  total_capacity_gb : ℚ
  num_volumes : Int
deriving Repr, DecidableEq

/-- The fresh entry inserted for a new category (lines 374-379). -/
def zeroEntry (slo : String) : ServiceLevelEntry :=
  { service_level := slo, count := 0, total_capacity_gb := 0, num_volumes := 0 }

/-- The per-group accumulation (lines 380-382). -/
def bumpEntry (e : ServiceLevelEntry) (sg : StorageGroupCapacity) :
    ServiceLevelEntry :=
  { e with count := e.count + 1
           total_capacity_gb := e.total_capacity_gb + sg.capacity_gb
           num_volumes := e.num_volumes + sg.num_volumes }

/-- One iteration of the breakdown loop over the insertion-ordered dict,
modelled as an association list: an existing category is updated in place,
a new one is appended. -/
def breakdownStep (m : List (String × ServiceLevelEntry))
    (sg : StorageGroupCapacity) : List (String × ServiceLevelEntry) :=
  let k := slKey sg
  if m.any (fun p => p.1 = k) then
    m.map (fun p => if p.1 = k then (p.1, bumpEntry p.2 sg) else p)
  else
    m ++ [(k, bumpEntry (zeroEntry k) sg)]

/-- `api_server.get_service_level_breakdown` (lines 364-384):
`list(breakdown.values())` of the insertion-ordered dict built by the loop. -/
def get_service_level_breakdown (sgs : List StorageGroupCapacity) :
    List ServiceLevelEntry :=
  (sgs.foldl breakdownStep []).map Prod.snd

/-- The category of a storage group according to the words of the spec and
of claim C8: the service-level label itself, with only an *absent* label
normalized to `"None"`.  Used to compare the claimed partition with the
code's `slKey`, which also sends the empty-string label to `"None"`. -/
def specServiceLevelCategory (service_level : Option String) : String :=
  match service_level with
  | none => "None"
  | some s => s

/-- Lookup of the first entry stored under key `k` in the association list
modelling the breakdown dict. -/
def findE (k : String) : List (String × ServiceLevelEntry) →
    Option ServiceLevelEntry
  | [] => none
  | p :: rest => if p.1 = k then some p.2 else findE k rest

/-- Accumulate all groups of category `k` into an optional entry, starting
from `acc` (`none` until the first group of the category is seen): the
functional core of what the breakdown loop does to one dict slot. -/
def accumEntry (k : String) :
    Option ServiceLevelEntry → List StorageGroupCapacity →
    Option ServiceLevelEntry
  | acc, [] => acc
  | acc, g :: rest =>
    accumEntry k
      (if slKey g = k then some (bumpEntry ((acc.getD (zeroEntry k))) g)
       else acc) rest

/-- Add the statistics of a whole list of groups to an entry at once. -/
def addStats (e : ServiceLevelEntry) (sgs : List StorageGroupCapacity) :
    ServiceLevelEntry :=
  { e with count := e.count + sgs.length
           total_capacity_gb :=
             e.total_capacity_gb + (sgs.map (fun g => g.capacity_gb)).sum
           num_volumes :=
             e.num_volumes + (sgs.map (fun g => g.num_volumes)).sum }

/-- The pool id that one iteration of the `get_srp_capacity` loop
contributes, if any: `none` when the pool's id is falsy or its stats fetch
raises. -/
def srpAttempt (env : FetchEnv) (info : PoolInfo) : Option String :=
  match pyStrOpt info.storageResourcePoolId with
  | none => none
  | some srp_id =>
    match env.fetchPoolStats srp_id with
    | .error _ => none
    | .ok _ => some srp_id

/-- A pool whose id is truthy and whose per-pool stats fetch succeeds. -/
def poolOk (env : FetchEnv) (info : PoolInfo) (srp_id : String) : Prop :=
  pyStrOpt info.storageResourcePoolId = some srp_id ∧
  ∃ raw, env.fetchPoolStats srp_id = .ok raw

/-- A pool whose id is truthy but whose per-pool stats fetch raises. -/
def poolFails (env : FetchEnv) (info : PoolInfo) : Prop :=
  ∃ srp_id e, pyStrOpt info.storageResourcePoolId = some srp_id ∧
    env.fetchPoolStats srp_id = .error e

/-- A concrete strictly-increasing clock: the k-th `now()` call of a run
reads `"k"`. -/
def okClock : Nat → String := fun n => toString n

/-- A fully healthy environment with no pools, storage groups or volumes:
every fetch succeeds, the system metrics are the spec fixture
`effective_used = 750`, `max_effective = 1000`. -/
def baseEnv : FetchEnv :=
  { connect := .ok ()
    clock := okClock
    fetchArrayKeys := .ok true
    fetchArrayStats := .ok (some
      { effectiveUsed := 750, maxEffective := 1000
        subscribed := 10, totalUsable := 20 })
    fetchPoolKeys := .ok none
    fetchPoolStats := fun _ =>
      .ok { used := 30, subscribed := 40, totalManaged := 100 }
    fetchSgList := .ok []
    fetchSgDetails := fun _ => .ok none
    fetchVolList := .ok []
    fetchVolDetails := fun _ => .ok none }

/-- `baseEnv` with the system-level fetch raising (connectivity failure). -/
def envSysFail : FetchEnv :=
  { baseEnv with
    fetchArrayKeys := .error (.otherExn "Cannot connect to Unisphere") }

/-- `baseEnv` with the pool identifier-list fetch raising. -/
def envPoolKeysFail : FetchEnv :=
  { baseEnv with fetchPoolKeys := .error (.otherExn "boom") }

/-- `baseEnv` with the storage-group identifier-list fetch raising. -/
def envSgListFail : FetchEnv :=
  { baseEnv with fetchSgList := .error (.otherExn "boom") }

/-- `baseEnv` with the volume identifier-list fetch raising. -/
def envVolListFail : FetchEnv :=
  { baseEnv with fetchVolList := .error (.otherExn "boom") }

/-- `baseEnv` with five pools of which `SRP_3`'s per-pool stats fetch
raises (the spec's partial-failure scenario). -/
def envFivePools : FetchEnv :=
  { baseEnv with
    fetchPoolKeys := .ok (some
      [{ storageResourcePoolId := some "SRP_1" },
       { storageResourcePoolId := some "SRP_2" },
       { storageResourcePoolId := some "SRP_3" },
       { storageResourcePoolId := some "SRP_4" },
       { storageResourcePoolId := some "SRP_5" }])
    fetchPoolStats := fun srp_id =>
      if srp_id = "SRP_3" then .error (.otherExn "read timeout")
      else .ok { used := 30, subscribed := 40, totalManaged := 100 } }

/-- A previous successful snapshot sitting in the store. -/
def prevSnapshot : CapacitySnapshot :=
  { array_id := "000297900330"
    collection_timestamp := "2024-01-01T00:00:00"
    system_capacity :=
      mkSystemCapacity "000297900330" "2024-01-01T00:00:01" 750 1000 10 20
    srp_capacities := []
    storage_group_capacities := []
    volume_capacities := [] }

/-- Server state holding `prevSnapshot` with no run in progress. -/
def prevState : ServerState :=
  { current_snapshot := some prevSnapshot
    collection_in_progress := false
    last_collection_time := some "2024-01-01T00:05:00"
    collection_error := none }

/-- The snapshot produced by a run against `baseEnv`: collection timestamp
is clock tick `"0"`, the system entity is stamped with tick `"1"`. -/
def snapBase : CapacitySnapshot :=
  { array_id := "A"
    collection_timestamp := "0"
    system_capacity := mkSystemCapacity "A" "1" 750 1000 10 20
    srp_capacities := []
    storage_group_capacities := []
    volume_capacities := [] }

/-- An example volume for the query-layer witnesses. -/
def exVol (volume_id : String) (cap : ℚ) (groups : List String) :
    VolumeCapacity :=
  mkVolumeCapacity "A" volume_id volume_id "t" cap 50 groups none none

/-- An example snapshot with four volumes of distinct capacities for the
pagination witnesses. -/
def exSnapshot : CapacitySnapshot :=
  { array_id := "A"
    collection_timestamp := "0"
    system_capacity := mkSystemCapacity "A" "1" 750 1000 10 20
    srp_capacities := []
    storage_group_capacities := []
    volume_capacities :=
      [exVol "v1" 1 ["SG_A"], exVol "v2" 3 [], exVol "v3" 2 ["SG_A"],
       exVol "v4" 5 []] }

/-- The spec's end-to-end service-level example: two Diamond groups of
capacities 100 and 50 and one unlabeled group of capacity 10. -/
def exGroups : List StorageGroupCapacity :=
  [mkStorageGroupCapacity "A" "SG1" "t" 100 4 (some "Diamond") none false,
   mkStorageGroupCapacity "A" "SG2" "t" 50 2 (some "Diamond") none false,
   mkStorageGroupCapacity "A" "SG3" "t" 10 1 none none false]

/-! ## Claim theorems -/

/-- C1 (amended): for every `SystemCapacity` constructed with
`max_effective_capacity_gb > 0`, `free_capacity_gb` and
`utilization_percent` are derived by the stated formulas (regardless of the
values passed for the optional derived-field arguments); for every
`SystemCapacity` constructed with `max_effective_capacity_gb ≤ 0` *with the
derived-field arguments left at their default `0`*, the derived fields equal
`0` exactly — and analogously for `SrpCapacity` with
`total_managed_space_gb` and its three derived fields. -/
theorem derived_capacity_fields (a ts : String) (u m sub tot free util : ℚ)
    (p sid pts : String) (pu psub ptm pfree putil psubscr : ℚ) :
    (0 < m →
      (mkSystemCapacity a ts u m sub tot free util).free_capacity_gb = m - u ∧
      (mkSystemCapacity a ts u m sub tot free util).utilization_percent
        = u / m * 100) ∧
    (m ≤ 0 →
      (mkSystemCapacity a ts u m sub tot).free_capacity_gb = 0 ∧
      (mkSystemCapacity a ts u m sub tot).utilization_percent = 0) ∧
    (0 < ptm →
      (mkSrpCapacity p sid pts pu psub ptm pfree putil psubscr).free_capacity_gb
        = ptm - pu ∧
      (mkSrpCapacity p sid pts pu psub ptm pfree putil psubscr).utilization_percent
        = pu / ptm * 100 ∧
      (mkSrpCapacity p sid pts pu psub ptm pfree putil psubscr).subscription_percent
        = psub / ptm * 100) ∧
    (ptm ≤ 0 →
      (mkSrpCapacity p sid pts pu psub ptm).free_capacity_gb = 0 ∧
      (mkSrpCapacity p sid pts pu psub ptm).utilization_percent = 0 ∧
      (mkSrpCapacity p sid pts pu psub ptm).subscription_percent = 0) := by
  refine ⟨fun h => ?_, fun h => ?_, fun h => ?_, fun h => ?_⟩
  · simp [mkSystemCapacity, h]
  · simp [mkSystemCapacity, not_lt.mpr h]
  · simp [mkSrpCapacity, h]
  · simp [mkSrpCapacity, not_lt.mpr h]

/-- C1 counterexample: the dataclass constructor accepts explicit values for
the derived fields, and `__post_init__` leaves them untouched when
`max_effective_capacity_gb ≤ 0`; a `SystemCapacity` constructed with
`max_effective_capacity_gb = 0` and `free_capacity_gb = 5` keeps
`free_capacity_gb = 5 ≠ 0`, contradicting the claim that all such instances
have derived fields equal to `0`. -/
theorem derived_fields_override_counterexample :
    (mkSystemCapacity "a" "t" 0 0 0 0 5 0).max_effective_capacity_gb ≤ 0 ∧
    (mkSystemCapacity "a" "t" 0 0 0 0 5 0).free_capacity_gb = 5 ∧
    (5 : ℚ) ≠ 0 := by
  norm_num [mkSystemCapacity]

/-- C1 witness: the amended theorem applied at the spec's fixture
`effective_used = 750`, `max_effective = 1000` (giving `free = 250`,
`utilization = 75`) and at `max_effective = -2`, `total_managed = -2`. -/
theorem derived_capacity_fields_witness :
    ((mkSystemCapacity "a" "t" 750 1000 10 20).free_capacity_gb = 1000 - 750 ∧
     (mkSystemCapacity "a" "t" 750 1000 10 20).utilization_percent
       = 750 / 1000 * 100) ∧
    ((mkSystemCapacity "a" "t" 7 (-2) 10 20).free_capacity_gb = 0 ∧
     (mkSystemCapacity "a" "t" 7 (-2) 10 20).utilization_percent = 0) ∧
    ((mkSrpCapacity "a" "SRP_1" "t" 30 40 100).free_capacity_gb = 100 - 30 ∧
     (mkSrpCapacity "a" "SRP_1" "t" 30 40 100).utilization_percent
       = 30 / 100 * 100 ∧
     (mkSrpCapacity "a" "SRP_1" "t" 30 40 100).subscription_percent
       = 40 / 100 * 100) ∧
    ((mkSrpCapacity "a" "SRP_1" "t" 30 40 (-2)).free_capacity_gb = 0 ∧
     (mkSrpCapacity "a" "SRP_1" "t" 30 40 (-2)).utilization_percent = 0 ∧
     (mkSrpCapacity "a" "SRP_1" "t" 30 40 (-2)).subscription_percent = 0) :=
  ⟨(derived_capacity_fields "a" "t" 750 1000 10 20 0 0
      "a" "SRP_1" "t" 30 40 100 0 0 0).1 (by norm_num),
   (derived_capacity_fields "a" "t" 7 (-2) 10 20 0 0
      "a" "SRP_1" "t" 30 40 100 0 0 0).2.1 (by norm_num),
   (derived_capacity_fields "a" "t" 750 1000 10 20 0 0
      "a" "SRP_1" "t" 30 40 100 0 0 0).2.2.1 (by norm_num),
   (derived_capacity_fields "a" "t" 750 1000 10 20 0 0
      "a" "SRP_1" "t" 30 40 (-2) 0 0 0).2.2.2 (by norm_num)⟩

/-- C9: every `StorageGroupCapacity` or `VolumeCapacity` constructed with a
negative `capacity_gb` stores `capacity_gb = 0`, and every `VolumeCapacity`
constructed with `allocated_percent` outside `[0, 100]` stores
`allocated_percent = 0`. -/
theorem construction_clamps (a g ts : String) (cap : ℚ) (nv : Int)
    (sl srp : Option String) (comp : Bool) (va vi vn vts : String)
    (vcap ap : ℚ) (sgl : List String) (w em : Option String) :
    (cap < 0 →
      (mkStorageGroupCapacity a g ts cap nv sl srp comp).capacity_gb = 0) ∧
    (vcap < 0 →
      (mkVolumeCapacity va vi vn vts vcap ap sgl w em).capacity_gb = 0) ∧
    (¬(0 ≤ ap ∧ ap ≤ 100) →
      (mkVolumeCapacity va vi vn vts vcap ap sgl w em).allocated_percent = 0) := by
  refine ⟨fun h => ?_, fun h => ?_, fun h => ?_⟩
  · simp [mkStorageGroupCapacity, h]
  · simp [mkVolumeCapacity, h]
  · simp only [mkVolumeCapacity, if_pos h]

/-- C9 witness: the clamping theorem applied at capacity `-1` and
`allocated_percent = 150`. -/
theorem construction_clamps_witness :
    (mkStorageGroupCapacity "A" "SG1" "t" (-1) 2 (some "Gold") none false).capacity_gb
      = 0 ∧
    (mkVolumeCapacity "A" "v1" "vol1" "t" (-1) 150 [] none none).capacity_gb = 0 ∧
    (mkVolumeCapacity "A" "v1" "vol1" "t" (-1) 150 [] none none).allocated_percent
      = 0 :=
  ⟨(construction_clamps "A" "SG1" "t" (-1) 2 (some "Gold") none false
      "A" "v1" "vol1" "t" (-1) 150 [] none none).1 (by norm_num),
   (construction_clamps "A" "SG1" "t" (-1) 2 (some "Gold") none false
      "A" "v1" "vol1" "t" (-1) 150 [] none none).2.1 (by norm_num),
   (construction_clamps "A" "SG1" "t" (-1) 2 (some "Gold") none false
      "A" "v1" "vol1" "t" (-1) 150 [] none none).2.2 (by norm_num)⟩

/-- C6: a collection request is rejected (HTTP 409,
`"Collection already in progress"`) if and only if a collection is in
progress and `force_refresh` is false; in every other case — including
`force_refresh = true` while in progress, and any request while idle — the
request is accepted. -/
theorem trigger_collection_policy (p f : Bool) :
    (trigger_collection p f = .error (409, "Collection already in progress")
      ↔ p = true ∧ f = false) ∧
    (trigger_collection p f = .ok "started" ↔ ¬(p = true ∧ f = false)) := by
  cases p <;> cases f <;> simp [trigger_collection]

/-- Both branches of `SystemCapacity.__post_init__` keep the passed
timestamp. -/
theorem mkSystemCapacity_timestamp (a ts : String) (u m sub tot free util : ℚ) :
    (mkSystemCapacity a ts u m sub tot free util).timestamp = ts := by
  unfold mkSystemCapacity; split <;> rfl

/-- `get_srp_capacity` succeeds exactly when the pool identifier-list fetch
does not raise (per-pool failures and a falsy list never fail the level). -/
theorem get_srp_capacity_isOk (env : FetchEnv) (a : String) (c : Nat) :
    (get_srp_capacity env a c).isOk = env.fetchPoolKeys.isOk := by
  unfold get_srp_capacity
  cases h : env.fetchPoolKeys with
  | error e => simp [Except.isOk, Except.toBool]
  | ok o => cases o <;> simp [Except.isOk, Except.toBool]

/-- `get_all_storage_groups` succeeds exactly when the group list fetch
does not raise. -/
theorem get_all_storage_groups_isOk (env : FetchEnv) (a : String) (c : Nat) :
    (get_all_storage_groups env a c).isOk = env.fetchSgList.isOk := by
  unfold get_all_storage_groups
  cases h : env.fetchSgList with
  | error e => simp [Except.isOk, Except.toBool]
  | ok o => cases o <;> simp [Except.isOk, Except.toBool]

/-- `get_all_volumes` succeeds exactly when the volume list fetch does not
raise. -/
theorem get_all_volumes_isOk (env : FetchEnv) (a : String) (c : Nat) :
    (get_all_volumes env a c).isOk = env.fetchVolList.isOk := by
  unfold get_all_volumes
  cases h : env.fetchVolList with
  | error e => simp [Except.isOk, Except.toBool]
  | ok o => cases o <;> simp [Except.isOk, Except.toBool]

/-- A collection run succeeds exactly when the system-level collection and
the three identifier-list fetches all succeed. -/
theorem get_all_capacity_data_isOk (env : FetchEnv) (a : String) :
    (get_all_capacity_data env a).isOk =
      ((get_system_summary env a 1).isOk && env.fetchPoolKeys.isOk &&
        env.fetchSgList.isOk && env.fetchVolList.isOk) := by
  unfold get_all_capacity_data
  cases hs : get_system_summary env a 1 with
  | error e => simp [Except.isOk, Except.toBool]
  | ok x =>
    obtain ⟨sys, c1⟩ := x
    have h1 := get_srp_capacity_isOk env a c1
    cases hp : get_srp_capacity env a c1 with
    | error e =>
      rw [hp] at h1
      simp only [hp]
      rw [← h1]
      simp [Except.isOk, Except.toBool]
    | ok y =>
      rw [hp] at h1
      obtain ⟨srps, c2⟩ := y
      have h2 := get_all_storage_groups_isOk env a c2
      simp only [hp]
      cases hg : get_all_storage_groups env a c2 with
      | error e =>
        rw [hg] at h2
        simp only [hg]
        rw [← h1, ← h2]
        simp [Except.isOk, Except.toBool]
      | ok z =>
        rw [hg] at h2
        obtain ⟨sgs, c3⟩ := z
        have h3 := get_all_volumes_isOk env a c3
        simp only [hg]
        cases hv : get_all_volumes env a c3 with
        | error e =>
          rw [hv] at h3
          simp only [hv]
          rw [← h1, ← h2, ← h3]
          simp [Except.isOk, Except.toBool]
        | ok w2 =>
          rw [hv] at h3
          obtain ⟨vols, c4⟩ := w2
          simp only [hv]
          rw [← h1, ← h2, ← h3]
          simp [Except.isOk, Except.toBool]

/-- C2: whenever the connection is established but `get_system_summary`
raises, the run of `collect_capacity_data` ends with
`collection_in_progress = false`, `collection_error` set to the raised
error's message, the snapshot store and `last_collection_time` exactly as
before the run, and broadcasts `collection_started`, the progress event and
`collection_error` (no `collection_completed`). -/
theorem failed_run_preserves_snapshot (env : FetchEnv) (a now_time : String)
    (s : ServerState) (msg : String) (hconn : env.connect = .ok ())
    (hsys : get_system_summary env a 1 = .error msg) :
    (collect_capacity_data env a now_time s).1.current_snapshot
      = s.current_snapshot ∧
    (collect_capacity_data env a now_time s).1.collection_error = some msg ∧
    (collect_capacity_data env a now_time s).1.collection_in_progress = false ∧
    (collect_capacity_data env a now_time s).1.last_collection_time
      = s.last_collection_time ∧
    (collect_capacity_data env a now_time s).2 =
      [.collectionStarted, .collectionProgress "system",
       .collectionError msg] := by
  have hall : get_all_capacity_data env a = .error msg := by
    simp [get_all_capacity_data, hsys]
  simp [collect_capacity_data, hconn, hall]

/-- C4 (amended): at the pool, storage-group and volume levels, an
identifier-list fetch that *returns no identifiers* (falsy/missing list)
degrades that level to an empty result and the run still succeeds; but an
identifier-list fetch that *raises* is converted to a `DataCollectionError`
and is fatal to the whole run at every level, not only the system level. -/
theorem list_fetch_failure_policy (env : FetchEnv) (a : String) (c : Nat)
    (e : PyExn) :
    (env.fetchPoolKeys = .ok none → get_srp_capacity env a c = .ok ([], c)) ∧
    (env.fetchSgList = .ok [] →
      get_all_storage_groups env a c = .ok ([], c)) ∧
    (env.fetchVolList = .ok [] → get_all_volumes env a c = .ok ([], c)) ∧
    (env.fetchPoolKeys = .error e →
      (get_srp_capacity env a c).isOk = false ∧
      (get_all_capacity_data env a).isOk = false) ∧
    (env.fetchSgList = .error e →
      (get_all_storage_groups env a c).isOk = false ∧
      (get_all_capacity_data env a).isOk = false) ∧
    (env.fetchVolList = .error e →
      (get_all_volumes env a c).isOk = false ∧
      (get_all_capacity_data env a).isOk = false) ∧
    (env.fetchPoolKeys = .ok none → (get_system_summary env a 1).isOk = true →
      env.fetchSgList.isOk = true → env.fetchVolList.isOk = true →
      (get_all_capacity_data env a).isOk = true) := by
  refine ⟨fun h => ?_, fun h => ?_, fun h => ?_, fun h => ⟨?_, ?_⟩,
    fun h => ⟨?_, ?_⟩, fun h => ⟨?_, ?_⟩, fun h1 h2 h3 h4 => ?_⟩
  · simp [get_srp_capacity, h]
  · simp [get_all_storage_groups, h]
  · simp [get_all_volumes, h]
  · rw [get_srp_capacity_isOk, h]; rfl
  · rw [get_all_capacity_data_isOk, h]; simp [Except.isOk, Except.toBool]
  · rw [get_all_storage_groups_isOk, h]; rfl
  · rw [get_all_capacity_data_isOk, h]; simp [Except.isOk, Except.toBool]
  · rw [get_all_volumes_isOk, h]; rfl
  · rw [get_all_capacity_data_isOk, h]; simp [Except.isOk, Except.toBool]
  · rw [get_all_capacity_data_isOk, h1, h2, h3, h4]; rfl

/-- C5 (amended): the snapshot's `collection_timestamp` is the clock value
captured at the very start of the run (tick 0); the constituent entities'
timestamps are *not* copied from it — each entity is stamped by its own
later `datetime.now()` call (the `SystemCapacity` reads tick 1). -/
theorem collection_timestamp_captured_at_start (env : FetchEnv) (a : String)
    (snap : CapacitySnapshot) (h : get_all_capacity_data env a = .ok snap) :
    snap.collection_timestamp = env.clock 0 ∧
    snap.system_capacity.timestamp = env.clock 1 := by
  simp only [get_all_capacity_data] at h
  split at h
  · exact Except.noConfusion h
  · rename_i sys c1 hs
    split at h
    · exact Except.noConfusion h
    · rename_i srps c2 hp
      split at h
      · exact Except.noConfusion h
      · rename_i sgs c3 hg
        split at h
        · exact Except.noConfusion h
        · rename_i vols c4 hv
          injection h with h2
          subst h2
          refine ⟨rfl, ?_⟩
          simp only [get_system_summary] at hs
          split at hs
          · exact Except.noConfusion hs
          · exact Except.noConfusion hs
          · split at hs
            · exact Except.noConfusion hs
            · exact Except.noConfusion hs
            · injection hs with h3
              obtain ⟨h4, -⟩ := (Prod.mk.injEq _ _ _ _).mp h3
              rw [← h4]
              exact mkSystemCapacity_timestamp _ _ _ _ _ _ _ _

/-- C2 witness: a run against `envSysFail` (system fetch raises a
connectivity error) starting from a state that holds a previous good
snapshot: the snapshot and `last_collection_time` are untouched, the error
message is recorded, and a `collection_error` event is broadcast. -/
theorem failed_run_preserves_snapshot_witness :
    (collect_capacity_data envSysFail "A" "t9" prevState).1.current_snapshot
      = prevState.current_snapshot ∧
    (collect_capacity_data envSysFail "A" "t9" prevState).1.collection_error
      = some "System summary collection failed: Cannot connect to Unisphere" ∧
    (collect_capacity_data envSysFail "A" "t9"
      prevState).1.collection_in_progress = false ∧
    (collect_capacity_data envSysFail "A" "t9" prevState).1.last_collection_time
      = prevState.last_collection_time ∧
    (collect_capacity_data envSysFail "A" "t9" prevState).2 =
      [.collectionStarted, .collectionProgress "system",
       .collectionError
         "System summary collection failed: Cannot connect to Unisphere"] :=
  failed_run_preserves_snapshot envSysFail "A" "t9" prevState
    "System summary collection failed: Cannot connect to Unisphere" rfl rfl

/-- C4 counterexample: when the pool identifier-list fetch raises, the pool
collector does *not* return an empty sequence — it raises a
`DataCollectionError`, and the whole run fails without producing a
snapshot, contradicting the claim that a list-fetch failure is fatal only
at the system level. -/
theorem list_fetch_error_counterexample :
    get_srp_capacity envPoolKeysFail "A" 2
      = .error "SRP capacity collection failed: boom" ∧
    get_all_capacity_data envPoolKeysFail "A"
      = .error "SRP capacity collection failed: boom" := ⟨rfl, rfl⟩

/-- C4 witness: the amended policy applied at four concrete environments —
a falsy pool list and empty group/volume lists degrade to empty results and
the run succeeds; a raising list fetch at any of the three levels fails the
run. -/
theorem list_fetch_failure_policy_witness :
    get_srp_capacity baseEnv "A" 5 = .ok ([], 5) ∧
    get_all_storage_groups baseEnv "A" 5 = .ok ([], 5) ∧
    get_all_volumes baseEnv "A" 5 = .ok ([], 5) ∧
    ((get_srp_capacity envPoolKeysFail "A" 5).isOk = false ∧
      (get_all_capacity_data envPoolKeysFail "A").isOk = false) ∧
    ((get_all_storage_groups envSgListFail "A" 5).isOk = false ∧
      (get_all_capacity_data envSgListFail "A").isOk = false) ∧
    ((get_all_volumes envVolListFail "A" 5).isOk = false ∧
      (get_all_capacity_data envVolListFail "A").isOk = false) ∧
    (get_all_capacity_data baseEnv "A").isOk = true :=
  ⟨(list_fetch_failure_policy baseEnv "A" 5 (.otherExn "boom")).1 rfl,
   (list_fetch_failure_policy baseEnv "A" 5 (.otherExn "boom")).2.1 rfl,
   (list_fetch_failure_policy baseEnv "A" 5 (.otherExn "boom")).2.2.1 rfl,
   (list_fetch_failure_policy envPoolKeysFail "A" 5
     (.otherExn "boom")).2.2.2.1 rfl,
   (list_fetch_failure_policy envSgListFail "A" 5
     (.otherExn "boom")).2.2.2.2.1 rfl,
   (list_fetch_failure_policy envVolListFail "A" 5
     (.otherExn "boom")).2.2.2.2.2.1 rfl,
   (list_fetch_failure_policy baseEnv "A" 5
     (.otherExn "boom")).2.2.2.2.2.2 rfl rfl rfl rfl⟩

/-- C5 counterexample: a successful run against `baseEnv` (whose clock
ticks `"0"`, `"1"`, ...) produces a snapshot whose `collection_timestamp`
is `"0"` while its `SystemCapacity`'s timestamp is `"1"`: the run's start
timestamp is *not* copied into the constituent entities, contradicting the
claim that every entity's timestamp equals the snapshot's. -/
theorem collection_timestamp_counterexample :
    (get_all_capacity_data baseEnv "A").map
      (fun s => (s.collection_timestamp, s.system_capacity.timestamp))
      = .ok ("0", "1") ∧ ("0" : String) ≠ "1" := ⟨rfl, by decide⟩

/-- C5 witness: the amended theorem applied to the concrete run against
`baseEnv`, whose snapshot is `snapBase`. -/
theorem collection_timestamp_captured_at_start_witness :
    snapBase.collection_timestamp = baseEnv.clock 0 ∧
    snapBase.system_capacity.timestamp = baseEnv.clock 1 :=
  collection_timestamp_captured_at_start baseEnv "A" snapBase rfl

/-- C7: for every snapshot, optional group filter and offset with a
positive limit, `get_volumes` returns exactly the elements at ranks
`offset+1 .. offset+limit` of the filtered list sorted descending by
capacity (`drop offset` then `take limit` of the sorted order), reports
`total` as the filtered count before pagination independently of
offset/limit, and the sorted order is a permutation of the filtered
volumes that is descending in `capacity_gb`. -/
theorem get_volumes_pagination (snap : CapacitySnapshot)
    (storage_group : Option String) (l offset : Nat) (h : 0 < l) :
    (get_volumes snap storage_group (some l) offset).items =
      ((sortVolumesDesc (filterVolumes snap.volume_capacities
        storage_group)).drop offset).take l ∧
    (get_volumes snap storage_group (some l) offset).total =
      (filterVolumes snap.volume_capacities storage_group).length ∧
    (sortVolumesDesc (filterVolumes snap.volume_capacities
      storage_group)).Perm
      (filterVolumes snap.volume_capacities storage_group) ∧
    (sortVolumesDesc (filterVolumes snap.volume_capacities
      storage_group)).Pairwise
      (fun a b => b.capacity_gb ≤ a.capacity_gb) := by
  refine ⟨?_, ?_, ?_, ?_⟩
  · cases l with
    | zero => exact absurd h (lt_irrefl 0)
    | succ n => rfl
  · simp [get_volumes, sortVolumesDesc]
  · exact List.mergeSort_perm _ _
  · unfold sortVolumesDesc
    have hs := @List.sorted_mergeSort VolumeCapacity
      (fun x y : VolumeCapacity => decide (y.capacity_gb ≤ x.capacity_gb))
      (fun a b c hab hbc => by
        simp only [decide_eq_true_eq] at hab hbc ⊢
        exact le_trans hbc hab)
      (fun a b => by
        simp only [Bool.or_eq_true, decide_eq_true_eq]
        exact le_total b.capacity_gb a.capacity_gb)
      (filterVolumes snap.volume_capacities storage_group)
    exact hs.imp (fun hd => of_decide_eq_true hd)

/-- C7 witness: the pagination theorem applied to a 4-volume snapshot with
`offset = 1`, `limit = 2`. -/
theorem get_volumes_pagination_witness :
    (get_volumes exSnapshot none (some 2) 1).items =
      ((sortVolumesDesc (filterVolumes exSnapshot.volume_capacities
        none)).drop 1).take 2 ∧
    (get_volumes exSnapshot none (some 2) 1).total =
      (filterVolumes exSnapshot.volume_capacities none).length ∧
    (sortVolumesDesc (filterVolumes exSnapshot.volume_capacities none)).Perm
      (filterVolumes exSnapshot.volume_capacities none) ∧
    (sortVolumesDesc (filterVolumes exSnapshot.volume_capacities
      none)).Pairwise (fun a b => b.capacity_gb ≤ a.capacity_gb) :=
  get_volumes_pagination exSnapshot none 2 1 (by decide)

/-- C10: when `limit` is `None` or `0` (both falsy in Python), no
pagination is applied: the full filtered, capacity-descending list is
returned whatever the offset, and `total` is still the full filtered
count. -/
theorem get_volumes_limit_falsy (snap : CapacitySnapshot)
    (storage_group : Option String) (limit : Option Nat) (offset : Nat)
    (h : limit = none ∨ limit = some 0) :
    (get_volumes snap storage_group limit offset).items =
      sortVolumesDesc (filterVolumes snap.volume_capacities storage_group) ∧
    (get_volumes snap storage_group limit offset).total =
      (filterVolumes snap.volume_capacities storage_group).length := by
  rcases h with h | h <;> subst h <;>
    exact ⟨rfl, by simp [get_volumes, sortVolumesDesc]⟩

/-- C10 witness: the no-pagination theorem applied with `limit = none`
(plus a group filter) and with `limit = some 0`, both at offset `7`. -/
theorem get_volumes_limit_falsy_witness :
    ((get_volumes exSnapshot (some "SG_A") none 7).items =
      sortVolumesDesc (filterVolumes exSnapshot.volume_capacities
        (some "SG_A")) ∧
    (get_volumes exSnapshot (some "SG_A") none 7).total =
      (filterVolumes exSnapshot.volume_capacities (some "SG_A")).length) ∧
    ((get_volumes exSnapshot none (some 0) 7).items =
      sortVolumesDesc (filterVolumes exSnapshot.volume_capacities none) ∧
    (get_volumes exSnapshot none (some 0) 7).total =
      (filterVolumes exSnapshot.volume_capacities none).length) :=
  ⟨get_volumes_limit_falsy exSnapshot (some "SG_A") none 7 (Or.inl rfl),
   get_volumes_limit_falsy exSnapshot none (some 0) 7 (Or.inr rfl)⟩

/-- Both branches of `SrpCapacity.__post_init__` keep the passed pool id. -/
theorem mkSrpCapacity_srp_id (a sid ts : String) (u s t f ut sub : ℚ) :
    (mkSrpCapacity a sid ts u s t f ut sub).srp_id = sid := by
  unfold mkSrpCapacity; split <;> rfl

/-- The per-pool loop yields exactly one entry per non-skipped pool, in
list order: the produced pool ids are the `filterMap` of `srpAttempt` over
the identifier list. -/
theorem srpLoop_map_srp_id (env : FetchEnv) (a : String) :
    ∀ (infos : List PoolInfo) (c : Nat),
    (srpLoop env a infos c).1.map (fun p => p.srp_id) =
      infos.filterMap (srpAttempt env) := by
  intro infos
  induction infos with
  | nil => intro c; rfl
  | cons info rest ih =>
    intro c
    cases hid : pyStrOpt info.storageResourcePoolId with
    | none => simp [srpLoop, hid, srpAttempt, List.filterMap_cons, ih]
    | some srp_id =>
      cases hf : env.fetchPoolStats srp_id with
      | error e => simp [srpLoop, hid, hf, srpAttempt, List.filterMap_cons, ih]
      | ok raw =>
        simp [srpLoop, hid, hf, srpAttempt, List.filterMap_cons, ih,
          mkSrpCapacity_srp_id]

/-- Pools that all have truthy ids and succeeding stats fetches contribute
exactly their ids, in order. -/
theorem filterMap_srpAttempt_of_ok {env : FetchEnv} {infos : List PoolInfo}
    {ids : List String} (h : List.Forall₂ (poolOk env) infos ids) :
    infos.filterMap (srpAttempt env) = ids := by
  induction h with
  | nil => rfl
  | cons h1 h2 ih =>
    obtain ⟨hid, raw, hf⟩ := h1
    simp [List.filterMap_cons, srpAttempt, hid, hf, ih]

/-- A pool whose stats fetch raises contributes nothing. -/
theorem srpAttempt_of_fails {env : FetchEnv} {info : PoolInfo}
    (h : poolFails env info) : srpAttempt env info = none := by
  obtain ⟨srp_id, e, hid, hf⟩ := h
  simp [srpAttempt, hid, hf]

/-- C3: when the pool identifier list splits as `pre ++ bad :: post` where
every pool in `pre` and `post` has a truthy id and a succeeding metrics
fetch and `bad`'s metrics fetch raises, `get_srp_capacity` succeeds with
one entry per non-failing pool in list order (their ids are
`preIds ++ postIds`), the result has one element fewer than the identifier
list, and — provided the system fetch and the other two identifier-list
fetches succeed — the whole collection run still completes successfully. -/
theorem partial_pool_failure_skips (env : FetchEnv) (a : String) (c : Nat)
    (pre post : List PoolInfo) (bad : PoolInfo)
    (preIds postIds : List String)
    (hkeys : env.fetchPoolKeys = .ok (some (pre ++ bad :: post)))
    (hpre : List.Forall₂ (poolOk env) pre preIds)
    (hbad : poolFails env bad)
    (hpost : List.Forall₂ (poolOk env) post postIds) :
    ∃ res c2, get_srp_capacity env a c = .ok (res, c2) ∧
      res.map (fun p => p.srp_id) = preIds ++ postIds ∧
      res.length = (pre ++ bad :: post).length - 1 ∧
      ((get_system_summary env a 1).isOk = true →
        env.fetchSgList.isOk = true → env.fetchVolList.isOk = true →
        (get_all_capacity_data env a).isOk = true) := by
  have hmap : (srpLoop env a (pre ++ bad :: post) c).1.map (fun p => p.srp_id)
      = preIds ++ postIds := by
    rw [srpLoop_map_srp_id, List.filterMap_append]
    simp only [List.filterMap_cons, srpAttempt_of_fails hbad]
    rw [filterMap_srpAttempt_of_ok hpre, filterMap_srpAttempt_of_ok hpost]
  refine ⟨(srpLoop env a (pre ++ bad :: post) c).1,
    (srpLoop env a (pre ++ bad :: post) c).2,
    by simp [get_srp_capacity, hkeys], hmap, ?_, ?_⟩
  · have hlen := congrArg List.length hmap
    simp only [List.length_map, List.length_append] at hlen
    have h1 := hpre.length_eq
    have h2 := hpost.length_eq
    simp [List.length_append, hlen]
    omega
  · intro h1 h2 h3
    rw [get_all_capacity_data_isOk, h1, h2, h3, hkeys]
    rfl

/-- C3 witness: the spec's scenario — five pools `SRP_1 .. SRP_5` where the
metrics fetch for pool #3 raises — yields a 4-element result and the run
against `envFivePools` still succeeds. -/
theorem partial_pool_failure_skips_witness :
    ∃ res c2, get_srp_capacity envFivePools "A" 2 = .ok (res, c2) ∧
      res.map (fun p => p.srp_id) =
        ["SRP_1", "SRP_2"] ++ ["SRP_4", "SRP_5"] ∧
      res.length = 4 ∧
      ((get_system_summary envFivePools "A" 1).isOk = true →
        envFivePools.fetchSgList.isOk = true →
        envFivePools.fetchVolList.isOk = true →
        (get_all_capacity_data envFivePools "A").isOk = true) :=
  partial_pool_failure_skips envFivePools "A" 2
    [{ storageResourcePoolId := some "SRP_1" },
     { storageResourcePoolId := some "SRP_2" }]
    [{ storageResourcePoolId := some "SRP_4" },
     { storageResourcePoolId := some "SRP_5" }]
    { storageResourcePoolId := some "SRP_3" }
    ["SRP_1", "SRP_2"] ["SRP_4", "SRP_5"] rfl
    (List.Forall₂.cons
      ⟨rfl, { used := 30, subscribed := 40, totalManaged := 100 }, rfl⟩
      (List.Forall₂.cons
        ⟨rfl, { used := 30, subscribed := 40, totalManaged := 100 }, rfl⟩
        List.Forall₂.nil))
    ⟨"SRP_3", .otherExn "read timeout", rfl, rfl⟩
    (List.Forall₂.cons
      ⟨rfl, { used := 30, subscribed := 40, totalManaged := 100 }, rfl⟩
      (List.Forall₂.cons
        ⟨rfl, { used := 30, subscribed := 40, totalManaged := 100 }, rfl⟩
        List.Forall₂.nil))

/-- The per-group accumulation never changes an entry's category label. -/
theorem bumpEntry_service_level (e : ServiceLevelEntry)
    (sg : StorageGroupCapacity) :
    (bumpEntry e sg).service_level = e.service_level := rfl

/-- Adding no groups changes nothing. -/
theorem addStats_nil (e : ServiceLevelEntry) : addStats e [] = e := by
  cases e; simp [addStats]

/-- Adding a group then a list equals bumping then adding the list. -/
theorem addStats_cons (e : ServiceLevelEntry) (g : StorageGroupCapacity)
    (l : List StorageGroupCapacity) :
    addStats e (g :: l) = addStats (bumpEntry e g) l := by
  cases e
  simp only [addStats, bumpEntry, List.length_cons, List.map_cons,
    List.sum_cons, ServiceLevelEntry.mk.injEq]
  refine ⟨trivial, by omega, by ring, by ring⟩

/-- Bumping every entry stored under key `k` maps the lookup at `k`. -/
theorem findE_map_bump_same (k : String) (sg : StorageGroupCapacity) :
    ∀ m : List (String × ServiceLevelEntry),
    findE k (m.map (fun p => if p.1 = k then (p.1, bumpEntry p.2 sg) else p))
      = (findE k m).map (fun e => bumpEntry e sg) := by
  intro m
  induction m with
  | nil => rfl
  | cons p rest ih =>
    by_cases hp : p.1 = k
    · simp [findE, hp]
    · simp [findE, hp, ih]

/-- Bumping the entries stored under a different key leaves the lookup at
`k` unchanged. -/
theorem findE_map_bump_other (k k2 : String) (sg : StorageGroupCapacity)
    (hne : k2 ≠ k) :
    ∀ m : List (String × ServiceLevelEntry),
    findE k (m.map (fun p => if p.1 = k2 then (p.1, bumpEntry p.2 sg) else p))
      = findE k m := by
  intro m
  induction m with
  | nil => rfl
  | cons p rest ih =>
    by_cases hp : p.1 = k2
    · simp [findE, hp, hne, ih]
    · by_cases hk : p.1 = k
      · simp [findE, hp, hk, Ne.symm hne]
      · simp [findE, hp, hk, ih]

/-- Lookup in an appended association list scans the left part first. -/
theorem findE_append (k : String) :
    ∀ m m2 : List (String × ServiceLevelEntry),
    findE k (m ++ m2) =
      match findE k m with
      | some e => some e
      | none => findE k m2 := by
  intro m m2
  induction m with
  | nil => rfl
  | cons p rest ih =>
    by_cases hp : p.1 = k
    · simp [findE, hp]
    · simp [findE, hp, ih]

/-- The dict-membership test `slo not in breakdown` agrees with `findE`. -/
theorem any_key_eq_isSome (k : String) :
    ∀ m : List (String × ServiceLevelEntry),
    (m.any (fun p => p.1 = k)) = (findE k m).isSome := by
  intro m
  induction m with
  | nil => rfl
  | cons p rest ih =>
    by_cases hp : p.1 = k
    · simp [findE, hp]
    · simp [findE, hp, ih]

/-- Effect of one loop iteration on the slot of an arbitrary key `k`:
the slot of the group's own category is bumped (starting from the zero
entry when absent); every other slot is untouched. -/
theorem findE_breakdownStep (k : String) (sg : StorageGroupCapacity)
    (m : List (String × ServiceLevelEntry)) :
    findE k (breakdownStep m sg) =
      if slKey sg = k then
        some (bumpEntry ((findE k m).getD (zeroEntry k)) sg)
      else findE k m := by
  unfold breakdownStep
  by_cases hany : (m.any (fun p => p.1 = slKey sg)) = true
  · rw [if_pos hany]
    by_cases hk : slKey sg = k
    · subst hk
      rw [findE_map_bump_same, if_pos rfl]
      rw [any_key_eq_isSome] at hany
      obtain ⟨e, he⟩ := Option.isSome_iff_exists.mp hany
      rw [he]
      rfl
    · rw [findE_map_bump_other k (slKey sg) sg hk, if_neg hk]
  · rw [if_neg hany, findE_append]
    by_cases hk : slKey sg = k
    · subst hk
      rw [any_key_eq_isSome] at hany
      have hnone : findE (slKey sg) m = none := by
        cases hf : findE (slKey sg) m with
        | none => rfl
        | some e => rw [hf] at hany; exact absurd rfl hany
      rw [hnone, if_pos rfl]
      simp [findE]
    · rw [if_neg hk]
      cases hf : findE k m with
      | none => simp [findE, hk]
      | some e => rfl

/-- Unfolding equation of `accumEntry` on a cons. -/
theorem accumEntry_cons (k : String) (acc : Option ServiceLevelEntry)
    (g : StorageGroupCapacity) (rest : List StorageGroupCapacity) :
    accumEntry k acc (g :: rest) =
      accumEntry k
        (if slKey g = k then some (bumpEntry (acc.getD (zeroEntry k)) g)
         else acc) rest := rfl

/-- The breakdown loop computes, in each slot `k`, exactly the accumulation
of the groups of category `k`. -/
theorem findE_foldl (k : String) :
    ∀ (sgs : List StorageGroupCapacity)
      (m : List (String × ServiceLevelEntry)),
    findE k (sgs.foldl breakdownStep m) = accumEntry k (findE k m) sgs := by
  intro sgs
  induction sgs with
  | nil => intro m; rfl
  | cons g rest ih =>
    intro m
    rw [List.foldl_cons, ih, findE_breakdownStep, accumEntry_cons]

/-- Accumulating from an existing entry adds the statistics of the groups
of category `k`, in the filter order. -/
theorem accumEntry_some (k : String) :
    ∀ (sgs : List StorageGroupCapacity) (e : ServiceLevelEntry),
    accumEntry k (some e) sgs =
      some (addStats e (sgs.filter (fun g => slKey g = k))) := by
  intro sgs
  induction sgs with
  | nil => intro e; rw [List.filter_nil, addStats_nil]; rfl
  | cons g rest ih =>
    intro e
    by_cases hg : slKey g = k
    · simp only [accumEntry, if_pos hg, Option.getD]
      rw [ih, List.filter_cons_of_pos (by simp [hg]), addStats_cons]
    · simp only [accumEntry, if_neg hg]
      rw [ih, List.filter_cons_of_neg (by simp [hg])]

/-- Accumulating from an empty slot yields `none` when no group has
category `k`, and otherwise the statistics of exactly those groups added to
the fresh zero entry. -/
theorem accumEntry_none (k : String) :
    ∀ sgs : List StorageGroupCapacity,
    accumEntry k none sgs =
      if (sgs.filter (fun g => slKey g = k)).isEmpty then none
      else some (addStats (zeroEntry k)
        (sgs.filter (fun g => slKey g = k))) := by
  intro sgs
  induction sgs with
  | nil => rfl
  | cons g rest ih =>
    by_cases hg : slKey g = k
    · simp only [accumEntry, if_pos hg, Option.getD]
      rw [accumEntry_some, List.filter_cons_of_pos (by simp [hg]),
        addStats_cons]
      simp [List.isEmpty]
    · simp only [accumEntry, if_neg hg]
      rw [ih, List.filter_cons_of_neg (by simp [hg])]

/-- One loop iteration preserves the key list, appending the group's
category only when it is new. -/
theorem keys_breakdownStep (m : List (String × ServiceLevelEntry))
    (sg : StorageGroupCapacity) :
    (breakdownStep m sg).map Prod.fst =
      if m.any (fun p => p.1 = slKey sg) then m.map Prod.fst
      else m.map Prod.fst ++ [slKey sg] := by
  unfold breakdownStep
  by_cases hany : (m.any (fun p => p.1 = slKey sg)) = true
  · rw [if_pos hany, if_pos hany, List.map_map]
    refine List.map_congr_left (fun p _ => ?_)
    by_cases hp : p.1 = slKey sg <;> simp [hp]
  · rw [if_neg hany, if_neg hany, List.map_append]
    rfl

/-- A key on which `any` fails is not among the stored keys. -/
theorem not_mem_keys_of_any_false (m : List (String × ServiceLevelEntry))
    (k : String) (h : ¬(m.any (fun p => p.1 = k)) = true) :
    k ∉ m.map Prod.fst := by
  intro hmem
  obtain ⟨p, hp, hpk⟩ := List.mem_map.mp hmem
  exact h (List.any_eq_true.mpr ⟨p, hp, by simp [hpk]⟩)

/-- One loop iteration preserves distinctness of the stored keys. -/
theorem nodup_keys_breakdownStep (m : List (String × ServiceLevelEntry))
    (sg : StorageGroupCapacity) (h : (m.map Prod.fst).Nodup) :
    ((breakdownStep m sg).map Prod.fst).Nodup := by
  rw [keys_breakdownStep]
  by_cases hany : (m.any (fun p => p.1 = slKey sg)) = true
  · rw [if_pos hany]; exact h
  · rw [if_neg hany, ← List.concat_eq_append]
    exact List.Nodup.concat (not_mem_keys_of_any_false m (slKey sg) hany) h

/-- The whole loop preserves distinctness of the stored keys. -/
theorem nodup_keys_foldl :
    ∀ (sgs : List StorageGroupCapacity)
      (m : List (String × ServiceLevelEntry)),
    (m.map Prod.fst).Nodup → ((sgs.foldl breakdownStep m).map Prod.fst).Nodup := by
  intro sgs
  induction sgs with
  | nil => intro m h; exact h
  | cons g rest ih =>
    intro m h
    exact ih (breakdownStep m g) (nodup_keys_breakdownStep m g h)

/-- One loop iteration preserves the invariant that every stored entry's
`service_level` field equals its key. -/
theorem breakdownStep_key_inv (m : List (String × ServiceLevelEntry))
    (sg : StorageGroupCapacity)
    (h : ∀ q ∈ m, q.2.service_level = q.1) :
    ∀ q ∈ breakdownStep m sg, q.2.service_level = q.1 := by
  intro q hq
  unfold breakdownStep at hq
  by_cases hany : (m.any (fun p => p.1 = slKey sg)) = true
  · rw [if_pos hany] at hq
    obtain ⟨p, hp, rfl⟩ := List.mem_map.mp hq
    by_cases hpk : p.1 = slKey sg
    · simp only [if_pos hpk, bumpEntry_service_level]
      exact h p hp
    · simp only [if_neg hpk]
      exact h p hp
  · rw [if_neg hany] at hq
    rcases List.mem_append.mp hq with hq2 | hq2
    · exact h q hq2
    · rw [List.mem_singleton.mp hq2]
      rfl

/-- The whole loop preserves the key/label invariant. -/
theorem foldl_key_inv :
    ∀ (sgs : List StorageGroupCapacity)
      (m : List (String × ServiceLevelEntry)),
    (∀ q ∈ m, q.2.service_level = q.1) →
    ∀ q ∈ sgs.foldl breakdownStep m, q.2.service_level = q.1 := by
  intro sgs
  induction sgs with
  | nil => intro m h; exact h
  | cons g rest ih =>
    intro m h
    exact ih (breakdownStep m g) (breakdownStep_key_inv m g h)

/-- With distinct keys, lookup at a member's key returns that member. -/
theorem findE_of_mem :
    ∀ (m : List (String × ServiceLevelEntry))
      (p : String × ServiceLevelEntry),
    (m.map Prod.fst).Nodup → p ∈ m → findE p.1 m = some p.2 := by
  intro m
  induction m with
  | nil => intro p _ hp; exact absurd hp (List.not_mem_nil p)
  | cons q rest ih =>
    intro p hnd hp
    rcases List.mem_cons.mp hp with rfl | hp2
    · simp [findE]
    · by_cases hq : q.1 = p.1
      · exfalso
        have : p.1 ∈ rest.map Prod.fst :=
          List.mem_map.mpr ⟨p, hp2, rfl⟩
        rw [List.map_cons, List.nodup_cons] at hnd
        exact hnd.1 (hq ▸ this)
      · simp only [findE, if_neg hq]
        exact ih p (by rw [List.map_cons, List.nodup_cons] at hnd; exact hnd.2)
          hp2

/-- A successful lookup exhibits a member of the association list. -/
theorem mem_of_findE :
    ∀ (m : List (String × ServiceLevelEntry)) (k : String)
      (e : ServiceLevelEntry),
    findE k m = some e → (k, e) ∈ m := by
  intro m
  induction m with
  | nil => intro k e h; exact Option.noConfusion h
  | cons q rest ih =>
    intro k e h
    obtain ⟨q1, q2⟩ := q
    by_cases hq : q1 = k
    · simp only [findE, if_pos hq] at h
      rw [List.mem_cons]
      left
      injection h with h2
      rw [← hq, h2]
    · simp only [findE, if_neg hq] at h
      exact List.mem_cons_of_mem _ (ih k e h)

/-- The accumulated entry of a fresh slot carries its category label. -/
theorem addStats_zero_service_level (k : String)
    (l : List StorageGroupCapacity) :
    (addStats (zeroEntry k) l).service_level = k := rfl

/-- C8 (amended): `get_service_level_breakdown` partitions the storage
groups by `sg.service_level or "None"` — an absent *or empty* label is
normalized to the `"None"` category — and reports, for each category that
occurs, the count of its groups, the sum of their `capacity_gb` and the sum
of their `num_volumes`; a category appears exactly when some group
normalizes to it, and each category appears exactly once. -/
theorem service_level_breakdown_partition (sgs : List StorageGroupCapacity) :
    (∀ e ∈ get_service_level_breakdown sgs,
      e.count = (sgs.filter (fun g => slKey g = e.service_level)).length ∧
      e.total_capacity_gb =
        ((sgs.filter (fun g => slKey g = e.service_level)).map
          (fun g => g.capacity_gb)).sum ∧
      e.num_volumes =
        ((sgs.filter (fun g => slKey g = e.service_level)).map
          (fun g => g.num_volumes)).sum) ∧
    (∀ k : String,
      (∃ e ∈ get_service_level_breakdown sgs, e.service_level = k) ↔
      ∃ g ∈ sgs, slKey g = k) ∧
    ((get_service_level_breakdown sgs).map
      (fun e => e.service_level)).Nodup := by
  have hinv : ∀ q ∈ sgs.foldl breakdownStep [], q.2.service_level = q.1 :=
    foldl_key_inv sgs [] (by intro q hq; exact absurd hq (List.not_mem_nil q))
  have hnd : ((sgs.foldl breakdownStep []).map Prod.fst).Nodup :=
    nodup_keys_foldl sgs [] List.nodup_nil
  have hacc : ∀ k, findE k (sgs.foldl breakdownStep []) = accumEntry k none sgs :=
    fun k => findE_foldl k sgs []
  refine ⟨?_, ?_, ?_⟩
  · intro e he
    obtain ⟨p, hp, rfl⟩ := List.mem_map.mp he
    have hk := hinv p hp
    have h8 : findE p.1 (sgs.foldl breakdownStep []) = some p.2 :=
      findE_of_mem _ p hnd hp
    rw [hacc p.1, accumEntry_none] at h8
    by_cases hemp : ((sgs.filter (fun g => slKey g = p.1)).isEmpty) = true
    · rw [if_pos hemp] at h8
      exact Option.noConfusion h8
    · rw [if_neg hemp] at h8
      have h9 := (Option.some.injEq _ _).mp h8
      rw [hk, ← h9]
      simp [addStats, zeroEntry]
  · intro k
    constructor
    · rintro ⟨e, he, hek⟩
      obtain ⟨p, hp, rfl⟩ := List.mem_map.mp he
      have hk := hinv p hp
      have hpk : p.1 = k := by rw [← hk, hek]
      have h8 : findE p.1 (sgs.foldl breakdownStep []) = some p.2 :=
        findE_of_mem _ p hnd hp
      rw [hacc p.1, accumEntry_none] at h8
      by_cases hemp : ((sgs.filter (fun g => slKey g = p.1)).isEmpty) = true
      · rw [if_pos hemp] at h8
        exact Option.noConfusion h8
      · rw [List.isEmpty_iff] at hemp
        obtain ⟨g, hg⟩ := List.exists_mem_of_ne_nil _ hemp
        have hg2 := List.mem_filter.mp hg
        exact ⟨g, hg2.1, hpk ▸ (by simpa using hg2.2)⟩
    · rintro ⟨g, hg, hgk⟩
      have hgf : g ∈ sgs.filter (fun g => slKey g = k) :=
        List.mem_filter.mpr ⟨hg, by simp [hgk]⟩
      have hemp : ((sgs.filter (fun g => slKey g = k)).isEmpty) ≠ true := by
        intro htrue
        rw [List.isEmpty_iff] at htrue
        rw [htrue] at hgf
        exact absurd hgf (List.not_mem_nil g)
      have h8 : findE k (sgs.foldl breakdownStep []) =
          some (addStats (zeroEntry k) (sgs.filter (fun g => slKey g = k))) := by
        rw [hacc k, accumEntry_none, if_neg hemp]
      have h9 := mem_of_findE _ k _ h8
      refine ⟨addStats (zeroEntry k) (sgs.filter (fun g => slKey g = k)),
        List.mem_map.mpr ⟨_, h9, rfl⟩, addStats_zero_service_level k _⟩
  · have : (get_service_level_breakdown sgs).map (fun e => e.service_level) =
        (sgs.foldl breakdownStep []).map Prod.fst := by
      unfold get_service_level_breakdown
      rw [List.map_map]
      exact List.map_congr_left (fun p hp => hinv p hp)
    rw [this]
    exact hnd

/-- C8 counterexample: a storage group whose service-level label is the
*empty string* (not absent) is placed in the `"None"` category by the code
(Python `or` treats `""` as falsy), while the claimed partition — which
normalizes only an absent label — has no group in category `"None"`; so
the code's `"None"` count of 1 differs from the claimed count of 0. -/
theorem breakdown_category_counterexample :
    (get_service_level_breakdown
      [mkStorageGroupCapacity "A" "SG9" "t" 10 1 (some "") none false]).map
      (fun e => (e.service_level, e.count)) = [("None", 1)] ∧
    ([mkStorageGroupCapacity "A" "SG9" "t" 10 1 (some "") none false].filter
      (fun g => specServiceLevelCategory g.service_level = "None")).length
      = 0 := ⟨rfl, rfl⟩

/-- The Diamond entry of the spec's end-to-end example, with count 2,
summed capacity 150 and summed volume count 6, is produced by the code. -/
theorem diamond_entry_mem_breakdown :
    (⟨"Diamond", 2, 150, 6⟩ : ServiceLevelEntry) ∈
      get_service_level_breakdown exGroups := by
  have hne1 : ¬("Diamond" = "") := by decide
  have hne2 : ¬("Diamond" = "None") := by decide
  norm_num [get_service_level_breakdown, breakdownStep, bumpEntry, zeroEntry,
    slKey, exGroups, mkStorageGroupCapacity, List.foldl, hne1, hne2]

/-- C8 witness: the amended theorem applied to the spec's example
`[{slo:"Diamond",cap:100},{slo:"Diamond",cap:50},{slo:None,cap:10}]`, at
its Diamond entry and at the category `"None"`. -/
theorem service_level_breakdown_partition_witness :
    ((⟨"Diamond", 2, 150, 6⟩ : ServiceLevelEntry).count =
        (exGroups.filter (fun g => slKey g = "Diamond")).length ∧
      (⟨"Diamond", 2, 150, 6⟩ : ServiceLevelEntry).total_capacity_gb =
        ((exGroups.filter (fun g => slKey g = "Diamond")).map
          (fun g => g.capacity_gb)).sum ∧
      (⟨"Diamond", 2, 150, 6⟩ : ServiceLevelEntry).num_volumes =
        ((exGroups.filter (fun g => slKey g = "Diamond")).map
          (fun g => g.num_volumes)).sum) ∧
    ((∃ e ∈ get_service_level_breakdown exGroups, e.service_level = "None") ↔
      ∃ g ∈ exGroups, slKey g = "None") :=
  ⟨(service_level_breakdown_partition exGroups).1
      ⟨"Diamond", 2, 150, 6⟩
      diamond_entry_mem_breakdown,
   (service_level_breakdown_partition exGroups).2.1 "None"⟩
